import Mathlib

/-!
Shallow embedding of the authentication and session-security subsystem of
ProjectGoat (backend/auth.py, backend/rate_limiter.py, backend/csrf.py and
the authentication endpoints of backend/main.py).

Timestamps are modelled as integers counting minutes; `datetime.now()`
becomes an explicit `now : Int` argument.  Database tables become Lean
lists threaded through each operation; SQL queries become list
operations.  Randomly generated values (`secrets.token_urlsafe`,
`bcrypt.gensalt`) are passed in as explicit arguments, and the external
bcrypt check (`bcrypt.checkpw`) is a function parameter.
-/

namespace ProjectGoat

/-- Timeout constant from auth.py: logout after 30 minutes of inactivity. -/
def IDLE_TIMEOUT_MINUTES : Int := 30

/-- Timeout constant from auth.py: logout after 8 hours regardless of activity. -/
def ABSOLUTE_TIMEOUT_HOURS : Int := 8

/-- Rate-limiter constant from rate_limiter.py. -/
def MAX_LOGIN_ATTEMPTS : Nat := 5

/-- Rate-limiter constant from rate_limiter.py (minutes). -/
def LOCKOUT_DURATION_MINUTES : Int := 15

/-- Rate-limiter constant from rate_limiter.py (minutes). -/
def ATTEMPT_WINDOW_MINUTES : Int := 15

/-- Row of the `sessions` table (models.UserSession). -/
structure UserSession where
  id : String
  user_id : String
  current_team_id : Option String
  created_at : Int
  expires_at : Int
  last_accessed : Int
  is_active : Bool
  last_activity_at : Option Int
  ip_address : Option String
  user_agent : Option String
  csrf_token : Option String
deriving DecidableEq

/-- Row of the `login_attempts` table (models.LoginAttempt). -/
structure LoginAttempt where
  id : String
  email : String
  ip_address : Option String
  user_agent : Option String
  attempted_at : Int
  success : Bool
  failure_reason : Option String
deriving DecidableEq

/-- Row of the `users` table (models.User); only the fields the auth
subsystem reads or writes. -/
structure User where
  id : String
  name : String
  email : String
  role : String
  password_hash : Option String
  is_active : Bool
  password_changed_at : Option Int
  last_login_at : Option Int
deriving DecidableEq

/-- Database state visible to the authentication endpoints: the `users`,
`sessions` and `login_attempts` tables plus the app_settings row with key
'current_user_id'. -/
structure AppState where
  users : List User
  sessions : List UserSession
  attempts : List LoginAttempt
  settings_current_user : Option String
deriving DecidableEq

/-! ## auth.py -/

/-- auth.verify_password.  `bcrypt.checkpw` is external and passed in as
`checkpw`; the null-hash branch returns False before bcrypt is ever
consulted. -/
def verify_password (checkpw : String → String → Bool)
    (password : String) (hashed : Option String) : Bool :=
  match hashed with
  | none => false
  | some h => checkpw password h

/-- auth.create_session: inserts a fresh session row.  The generated
`secrets.token_urlsafe(32)` id is the explicit `session_id` argument;
`timedelta(days=expires_days)` is `expires_days * 24 * 60` minutes. -/
def create_session (sessions : List UserSession) (user_id : String)
    (team_id : Option String) (expires_days : Int) (now : Int)
    (session_id : String) : List UserSession :=
  sessions ++ [{ id := session_id
                 user_id := user_id
                 current_team_id := team_id
                 created_at := now
                 expires_at := now + expires_days * 24 * 60
                 last_accessed := now
                 is_active := true
                 last_activity_at := some now
                 ip_address := none
                 user_agent := none
                 csrf_token := none }]

/-- auth.delete_session: `db.query(...).filter_by(id=...).first()` then
`db.delete(session)` — removes the first row whose id matches. -/
def delete_session : List UserSession → String → List UserSession
  | [], _ => []
  | s :: rest, session_id =>
    if s.id == session_id then rest else s :: delete_session rest session_id

/-- Helper modelling `session.last_accessed = now; db.commit()` on the row
found by `filter_by(id=...).first()`: updates the first matching row. -/
def set_last_accessed : List UserSession → String → Int → List UserSession
  | [], _, _ => []
  | s :: rest, session_id, now =>
    if s.id == session_id then { s with last_accessed := now } :: rest
    else s :: set_last_accessed rest session_id now

/-- auth.get_session_user: validate a session against the triple expiry
policy.  Returns the optional user id together with the updated sessions
table (expired rows are deleted; on success `last_accessed` is set). -/
def get_session_user (sessions : List UserSession) (session_id : String)
    (now : Int) : Option String × List UserSession :=
  match sessions.find? (fun s => s.id == session_id) with
  | none => (none, sessions)
  | some s =>
    if now > s.expires_at then
      (none, delete_session sessions session_id)
    else if now > s.created_at + ABSOLUTE_TIMEOUT_HOURS * 60 then
      (none, delete_session sessions session_id)
    else
      match s.last_activity_at with
      | some la =>
        if now > la + IDLE_TIMEOUT_MINUTES then
          (none, delete_session sessions session_id)
        else
          (some s.user_id, set_last_accessed sessions session_id now)
      | none => (some s.user_id, set_last_accessed sessions session_id now)

/-- auth.get_current_user_setting: SELECT value FROM app_settings WHERE
key = 'current_user_id'. -/
def get_current_user_setting (st : AppState) : Option String :=
  st.settings_current_user

/-- auth.set_current_user_setting: UPSERT of the 'current_user_id' row. -/
def set_current_user_setting (st : AppState) (user_id : String) : AppState :=
  { st with settings_current_user := some user_id }

/-- Special-character set of the regex in auth.validate_password_strength. -/
def SPECIAL_CHARS : List Char :=
  ['!', '@', '#', '$', '%', '^', '&', '*', '(', ')', ',', '.', '?', '\"',
   ':', '\x7b', '\x7d', '|', '<', '>']

/-- auth.validate_password_strength: fixed-order rules, first failure
wins.  `re.search` for a character class is an existence check over the
characters of the password (`.data.any`); `len(password)` is
`String.length`. -/
def validate_password_strength (password : String) : Bool × String :=
  if password.length < 8 then
    (false, "Password must be at least 8 characters long")
  else if !(password.data.any fun c => 'A' ≤ c && c ≤ 'Z') then
    (false, "Password must contain at least one uppercase letter")
  else if !(password.data.any fun c => 'a' ≤ c && c ≤ 'z') then
    (false, "Password must contain at least one lowercase letter")
  else if !(password.data.any fun c => '0' ≤ c && c ≤ '9') then
    (false, "Password must contain at least one number")
  else if !(password.data.any fun c => SPECIAL_CHARS.contains c) then
    (false, "Password must contain at least one special character")
  else
    (true, "")

/-- auth.invalidate_user_sessions: bulk delete of a user's sessions,
optionally sparing one.  `if except_session_id:` guards the extra
filter. -/
def invalidate_user_sessions (sessions : List UserSession) (user_id : String)
    (except_session_id : Option String) : List UserSession :=
  sessions.filter fun s =>
    !(s.user_id == user_id &&
      (match except_session_id with
       | none => true
       | some e => s.id != e))

/-! ## rate_limiter.py -/

/-- Count of rows matching the failed-attempts window query in
rate_limiter.check_rate_limit (email matches, success = 0,
attempted_at > window_start). -/
def failedAttemptsInWindow (attempts : List LoginAttempt) (email : String)
    (window_start : Int) : Nat :=
  (attempts.filter fun a =>
    a.email == email && a.success == false && a.attempted_at > window_start).length

/-- Timestamp of the most recent failed attempt for an email:
SELECT attempted_at ... WHERE email = :email AND success = 0
ORDER BY attempted_at DESC LIMIT 1. -/
def lastFailedAttemptTime : List LoginAttempt → String → Option Int
  | [], _ => none
  | a :: rest, email =>
    let r := lastFailedAttemptTime rest email
    if a.email == email && a.success == false then
      match r with
      | none => some a.attempted_at
      | some m => some (max a.attempted_at m)
    else r

/-- rate_limiter.check_rate_limit.  Returns
(is_allowed, attempts_remaining, locked_until); `max(0, ...)` is Nat
subtraction. -/
def check_rate_limit (attempts : List LoginAttempt) (email : String)
    (now : Int) : Bool × Nat × Option Int :=
  let window_start := now - ATTEMPT_WINDOW_MINUTES
  let failed_attempts := failedAttemptsInWindow attempts email window_start
  let attempts_remaining := MAX_LOGIN_ATTEMPTS - failed_attempts
  if failed_attempts ≥ MAX_LOGIN_ATTEMPTS then
    match lastFailedAttemptTime attempts email with
    | some last_attempt =>
      let locked_until := last_attempt + LOCKOUT_DURATION_MINUTES
      if now < locked_until then (false, 0, some locked_until)
      else (true, attempts_remaining, none)
    | none => (true, attempts_remaining, none)
  else
    (true, attempts_remaining, none)

/-- rate_limiter.record_login_attempt: INSERT of one immutable row; the
generated id is the explicit `attempt_id` argument. -/
def record_login_attempt (attempts : List LoginAttempt) (attempt_id : String)
    (email : String) (success : Bool) (now : Int)
    (ip_address user_agent failure_reason : Option String) :
    List LoginAttempt :=
  attempts ++ [{ id := attempt_id
                 email := email
                 ip_address := ip_address
                 user_agent := user_agent
                 attempted_at := now
                 success := success
                 failure_reason := failure_reason }]

/-- rate_limiter.clear_login_attempts: DELETE FROM login_attempts WHERE
email = :email AND success = 0. -/
def clear_login_attempts (attempts : List LoginAttempt) (email : String) :
    List LoginAttempt :=
  attempts.filter fun a => !(a.email == email && a.success == false)

/-! ## csrf.py -/

/-- csrf.store_csrf_token: UPDATE sessions SET csrf_token = :token WHERE
id = :session_id (touching every matching row, a no-op when none
matches). -/
def store_csrf_token (sessions : List UserSession) (session_id token : String) :
    List UserSession :=
  sessions.map fun s =>
    if s.id == session_id then { s with csrf_token := some token } else s

/-- csrf.get_csrf_token: fetch the stored token; Python's
`result[0] if result and result[0] else None` maps an absent row, a NULL
token and an empty-string token all to None. -/
def get_csrf_token (sessions : List UserSession) (session_id : String) :
    Option String :=
  match sessions.find? (fun s => s.id == session_id) with
  | none => none
  | some s =>
    match s.csrf_token with
    | none => none
    | some t => if t == "" then none else some t

/-- csrf.verify_csrf_token: absent stored token gives False, otherwise a
constant-time comparison (`secrets.compare_digest`, i.e. string
equality). -/
def verify_csrf_token (sessions : List UserSession) (session_id token : String) :
    Bool :=
  match get_csrf_token sessions session_id with
  | none => false
  | some stored => stored == token

/-! ## main.py authentication endpoints -/

/-- Outcome of POST /api/auth/login.  `rateLimited` is HTTP 429,
`invalidCredentials` HTTP 401, `accountDisabled` HTTP 403. -/
inductive LoginOutcome where
  | rateLimited
  | invalidCredentials
  | accountDisabled
  | success (session_id csrf_token user_id : String)
deriving DecidableEq

/-- crud.get_user_by_email. -/
def get_user_by_email (users : List User) (email : String) : Option User :=
  users.find? fun u => u.email == email

/-- crud.get_user. -/
def get_user (users : List User) (user_id : String) : Option User :=
  users.find? fun u => u.id == user_id

/-- UPDATE users SET last_login_at = :now WHERE id = :user_id (login). -/
def update_last_login (users : List User) (user_id : String) (now : Int) :
    List User :=
  users.map fun u =>
    if u.id == user_id then { u with last_login_at := some now } else u

/-- UPDATE users SET password_hash, password_changed_at WHERE id
(change_password). -/
def update_user_password (users : List User) (user_id : String)
    (password_hash : String) (now : Int) : List User :=
  users.map fun u =>
    if u.id == user_id then
      { u with password_hash := some password_hash
               password_changed_at := some now }
    else u

/-- Failure reason recorded when the limiter rejects a login request. -/
def LOCKED_REASON : String := "Account locked due to too many failed attempts"

/-- main.login (POST /api/auth/login).  External inputs made explicit:
`checkpw` is bcrypt.checkpw, `now` is datetime.now(), `attempt_id`,
`new_session_id` and `new_csrf_token` are the generated random tokens,
and `first_team` is the id of the first team returned by
team_crud.get_teams_for_user (the team subsystem is an external
collaborator).  `create_session` is called with its Python default of 30
expiry days. -/
def login (st : AppState) (email password : String)
    (client_ip user_agent : Option String)
    (checkpw : String → String → Bool) (now : Int)
    (attempt_id new_session_id new_csrf_token : String)
    (first_team : Option String) : LoginOutcome × AppState :=
  let recordFailure := fun (reason : String) =>
    record_login_attempt st.attempts attempt_id email false now client_ip
      user_agent (some reason)
  let checked := check_rate_limit st.attempts email now
  if checked.1 == false then
    (LoginOutcome.rateLimited, { st with attempts := recordFailure LOCKED_REASON })
  else
    match get_user_by_email st.users email with
    | none =>
      (LoginOutcome.invalidCredentials,
       { st with attempts := recordFailure "Email not found" })
    | some user =>
      if user.is_active == false then
        (LoginOutcome.accountDisabled,
         { st with attempts := recordFailure "Account disabled" })
      else if verify_password checkpw password user.password_hash == false then
        (LoginOutcome.invalidCredentials,
         { st with attempts := recordFailure "Invalid credentials" })
      else
        let recorded :=
          record_login_attempt st.attempts attempt_id email true now client_ip
            user_agent none
        let st1 := { st with attempts := recorded }
        let st2 := { st1 with attempts := clear_login_attempts st1.attempts email }
        let st3 := { st2 with users := update_last_login st2.users user.id now }
        let created :=
          create_session st3.sessions user.id first_team 30 now new_session_id
        let st4 := { st3 with sessions := created }
        let st5 := set_current_user_setting st4 user.id
        let stored := store_csrf_token st5.sessions new_session_id new_csrf_token
        let st6 := { st5 with sessions := stored }
        (LoginOutcome.success new_session_id new_csrf_token user.id, st6)

/-- main.require_auth: session-header lookup with the settings-key
fallback (`if not user_id and not os.getenv("TEST_MODE")`).  Returns the
authenticated user id (`none` models the 401) and the updated state. -/
def require_auth (st : AppState) (session_header : Option String)
    (test_mode : Bool) (now : Int) : Option String × AppState :=
  let looked :=
    match session_header with
    | some sid => get_session_user st.sessions sid now
    | none => (none, st.sessions)
  let st1 := { st with sessions := looked.2 }
  let user_id :=
    match looked.1 with
    | some u => some u
    | none => if test_mode == false then get_current_user_setting st1 else none
  (user_id, st1)

/-- main.check_session (GET /api/auth/session): never raises, returns
(authenticated, user id of the reported user) plus the updated state. -/
def check_session (st : AppState) (session_id : Option String)
    (test_mode : Bool) (now : Int) : (Bool × Option String) × AppState :=
  let looked :=
    match session_id with
    | some sid => get_session_user st.sessions sid now
    | none => (none, st.sessions)
  let st1 := { st with sessions := looked.2 }
  let user_id :=
    match looked.1 with
    | some u => some u
    | none => if test_mode == false then get_current_user_setting st1 else none
  match user_id with
  | none => ((false, none), st1)
  | some uid =>
    match get_user st1.users uid with
    | none => ((false, none), st1)
    | some user => ((true, some user.id), st1)

/-- main.logout (POST /api/auth/logout): deletes the one session. -/
def logout (st : AppState) (session_id : String) : AppState :=
  { st with sessions := delete_session st.sessions session_id }

/-- Outcome of POST /api/auth/change-password.  The first three are
HTTP 401/401/404; the next three are HTTP 400. -/
inductive ChangePasswordResult where
  | noSessionHeader
  | invalidSession
  | userNotFound
  | wrongCurrentPassword
  | weakPassword (reason : String)
  | samePassword
  | success (csrf_token : String)
deriving DecidableEq

/-- main.change_password (POST /api/auth/change-password).  `new_hash`
is the externally computed bcrypt hash of the new password and
`new_csrf_token` the generated replacement token. -/
def change_password (st : AppState) (session_header : Option String)
    (current_password new_password : String)
    (checkpw : String → String → Bool) (new_hash : String) (now : Int)
    (new_csrf_token : String) : ChangePasswordResult × AppState :=
  match session_header with
  | none => (ChangePasswordResult.noSessionHeader, st)
  | some session_id =>
    let looked := get_session_user st.sessions session_id now
    let st1 := { st with sessions := looked.2 }
    match looked.1 with
    | none => (ChangePasswordResult.invalidSession, st1)
    | some user_id =>
      match get_user st1.users user_id with
      | none => (ChangePasswordResult.userNotFound, st1)
      | some user =>
        if verify_password checkpw current_password user.password_hash == false then
          (ChangePasswordResult.wrongCurrentPassword, st1)
        else
          let strength := validate_password_strength new_password
          if strength.1 == false then
            (ChangePasswordResult.weakPassword strength.2, st1)
          else if verify_password checkpw new_password user.password_hash then
            (ChangePasswordResult.samePassword, st1)
          else
            let updated := update_user_password st1.users user_id new_hash now
            let st2 := { st1 with users := updated }
            let invalidated := invalidate_user_sessions st2.sessions user_id none
            let st3 := { st2 with sessions := invalidated }
            let stored := store_csrf_token st3.sessions session_id new_csrf_token
            let st4 := { st3 with sessions := stored }
            (ChangePasswordResult.success new_csrf_token, st4)

/-! ## Concrete fixtures for witnesses and counterexamples -/

/-- A valid, freshly created session row for user u1. -/
def sessA : UserSession :=
  { id := "s1"
    user_id := "u1"
    current_team_id := none
    created_at := 0
    expires_at := 43200
    last_accessed := 0
    is_active := true
    last_activity_at := some 0
    ip_address := none
    user_agent := none
    csrf_token := none }

/-- A valid session row for user u1 carrying a stored CSRF token, with
recent activity at minute 90. -/
def sessB : UserSession :=
  { id := "sid1"
    user_id := "u1"
    current_team_id := none
    created_at := 0
    expires_at := 43200
    last_accessed := 0
    is_active := true
    last_activity_at := some 90
    ip_address := none
    user_agent := none
    csrf_token := some "OLDTOK" }

/-- A session row for user u1 that is past its absolute expiration. -/
def sessExpired : UserSession :=
  { id := "sid9"
    user_id := "u1"
    current_team_id := none
    created_at := 0
    expires_at := 50
    last_accessed := 0
    is_active := true
    last_activity_at := some 0
    ip_address := none
    user_agent := none
    csrf_token := none }

/-- User u1 with password hash H1, active. -/
def userA : User :=
  { id := "u1"
    name := "User One"
    email := "e"
    role := "member"
    password_hash := some "H1"
    is_active := true
    password_changed_at := none
    last_login_at := none }

/-- Concrete stand-in for bcrypt.checkpw: accepts exactly the password
Current1! against the hash H1. -/
def cpA : String → String → Bool :=
  fun p h => p == "Current1!" && h == "H1"

/-- A failed login attempt row for identity e at the given minute. -/
def failedRow (i : String) (t : Int) : LoginAttempt :=
  { id := i
    email := "e"
    ip_address := none
    user_agent := none
    attempted_at := t
    success := false
    failure_reason := some ("Invalid credentials") }

/-- Five failed attempts for identity e within minutes 1..5. -/
def attsLocked : List LoginAttempt :=
  [failedRow "a1" 1, failedRow "a2" 2, failedRow "a3" 3,
   failedRow "a4" 4, failedRow "a5" 5]

/-- A successful attempt row for identity e at minute 0. -/
def successRowE : LoginAttempt :=
  { id := "a0"
    email := "e"
    ip_address := none
    user_agent := none
    attempted_at := 0
    success := true
    failure_reason := none }

/-- A failed attempt row for the unrelated identity f at minute 4. -/
def failedRowF : LoginAttempt :=
  { id := "f1"
    email := "f"
    ip_address := none
    user_agent := none
    attempted_at := 4
    success := false
    failure_reason := some ("Invalid credentials") }

/-- Mixed attempt log: three failed rows for e, one success row for e,
one failed row for f. -/
def attsMix : List LoginAttempt :=
  [successRowE, failedRow "a1" 1, failedRow "a2" 2, failedRow "a3" 3, failedRowF]

/-- App state in which identity e is locked out. -/
def stLocked : AppState :=
  { users := [userA], sessions := [], attempts := attsLocked,
    settings_current_user := none }

/-- App state with a mixed attempt log and no lockout. -/
def stMix : AppState :=
  { users := [userA], sessions := [], attempts := attsMix,
    settings_current_user := none }

/-- App state with a valid session for u1 and the settings key set, as
left behind by a login. -/
def stB : AppState :=
  { users := [userA], sessions := [sessB], attempts := [],
    settings_current_user := some "u1" }

/-- App state with only an expired session for u1 and the settings key
set. -/
def stExpired : AppState :=
  { users := [userA], sessions := [sessExpired], attempts := [],
    settings_current_user := some "u1" }

/-! ## Helper lemmas -/

/-- Updating last_accessed keeps the row found for an id, with only the
last_accessed field changed. -/
theorem find?_set_last_accessed (sessions : List UserSession) (sid : String)
    (now : Int) (row : UserSession)
    (h : sessions.find? (fun x => x.id == sid) = some row) :
    (set_last_accessed sessions sid now).find? (fun x => x.id == sid)
      = some { row with last_accessed := now } := by
  induction sessions with
  | nil => simp at h
  | cons a rest ih =>
    by_cases ha : (a.id == sid) = true
    · simp only [List.find?, ha] at h
      cases h
      simp only [set_last_accessed]
      rw [if_pos ha]
      simp only [List.find?, ha]
    · have ha' : (a.id == sid) = false := by simpa using ha
      simp only [List.find?, ha'] at h
      simp only [set_last_accessed]
      rw [if_neg ha]
      simp only [List.find?, ha']
      exact ih h

/-- Deleting a session removes the only row with that id when ids are
unique. -/
theorem find?_delete_session (sessions : List UserSession) (sid : String)
    (hnodup : (sessions.map fun x => x.id).Nodup) :
    (delete_session sessions sid).find? (fun x => x.id == sid) = none := by
  induction sessions with
  | nil => rfl
  | cons a rest ih =>
    simp only [List.map_cons, List.nodup_cons] at hnodup
    by_cases ha : (a.id == sid) = true
    · unfold delete_session
      rw [if_pos ha]
      rw [List.find?_eq_none]
      intro x hx hpx
      have hid : x.id = sid := by simpa using hpx
      have haid : a.id = sid := by simpa using ha
      exact hnodup.1 (haid ▸ hid ▸ List.mem_map_of_mem (fun s => s.id) hx)
    · have ha' : (a.id == sid) = false := by simpa using ha
      unfold delete_session
      rw [if_neg ha]
      simp only [List.find?, ha']
      exact ih hnodup.2

/-- Storing a CSRF token rewrites the token of the row found for the id
and nothing else of that row. -/
theorem find?_store_csrf_token (sessions : List UserSession) (sid t : String)
    (row : UserSession)
    (h : sessions.find? (fun x => x.id == sid) = some row) :
    (store_csrf_token sessions sid t).find? (fun x => x.id == sid)
      = some { row with csrf_token := some t } := by
  induction sessions with
  | nil => simp at h
  | cons a rest ih =>
    by_cases ha : (a.id == sid) = true
    · simp only [List.find?, ha] at h
      cases h
      unfold store_csrf_token
      simp only [List.map_cons]
      rw [if_pos ha]
      simp only [List.find?, ha]
    · have ha' : (a.id == sid) = false := by simpa using ha
      simp only [List.find?, ha'] at h
      unfold store_csrf_token
      simp only [List.map_cons]
      rw [if_neg ha]
      simp only [List.find?, ha']
      have hr := ih h
      simpa only [store_csrf_token] using hr

/-! ## Claim theorems -/

/-- C8: validate_password_strength applies its rules in fixed order with
the first failure winning; the six reference passwords produce exactly
the claimed outcomes, and the five failure reasons are pairwise
distinct. -/
theorem c8_password_strength_order :
    validate_password_strength "short1!" =
      (false, "Password must be at least 8 characters long")
    ∧ validate_password_strength "alllowercase1!" =
      (false, "Password must contain at least one uppercase letter")
    ∧ validate_password_strength "ALLUPPERCASE1!" =
      (false, "Password must contain at least one lowercase letter")
    ∧ validate_password_strength "NoDigits!!" =
      (false, "Password must contain at least one number")
    ∧ validate_password_strength "NoSpecial123" =
      (false, "Password must contain at least one special character")
    ∧ validate_password_strength "Valid123!" = (true, "")
    ∧ ["Password must be at least 8 characters long",
       "Password must contain at least one uppercase letter",
       "Password must contain at least one lowercase letter",
       "Password must contain at least one number",
       "Password must contain at least one special character"].Nodup := by
  decide

/-- C9: verify_password with an absent (NULL) hash returns false for
every password and every behavior of the external bcrypt check, which is
never consulted on this branch: the call cannot raise. -/
theorem c9_verify_password_null_hash (checkpw : String → String → Bool)
    (password : String) :
    verify_password checkpw password none = false := rfl

/-- C10 (amended): with no stored token, verify_csrf_token is false for
every supplied token, including when the session row is absent; when the
session row exists and a nonempty token t is stored, verify succeeds
exactly on t. -/
theorem c10_csrf_roundtrip (sessions : List UserSession) (s t t' : String)
    (ht : t ≠ "") (ht' : t' ≠ t) :
    (get_csrf_token sessions s = none →
      ∀ u, verify_csrf_token sessions s u = false)
    ∧ (∀ row, sessions.find? (fun x => x.id == s) = some row →
        verify_csrf_token (store_csrf_token sessions s t) s t = true
        ∧ verify_csrf_token (store_csrf_token sessions s t) s t' = false) := by
  constructor
  · intro h u
    unfold verify_csrf_token
    rw [h]
  · intro row hrow
    have hf := find?_store_csrf_token sessions s t row hrow
    constructor
    · unfold verify_csrf_token get_csrf_token
      rw [hf]
      simp [ht]
    · unfold verify_csrf_token get_csrf_token
      rw [hf]
      simp [ht, Ne.symm ht']

/-- Witness for C10 at a concrete session table. -/
theorem c10_csrf_roundtrip_witness :
    (get_csrf_token [sessA] "s1" = none →
      ∀ u, verify_csrf_token [sessA] "s1" u = false)
    ∧ (∀ row, [sessA].find? (fun x => x.id == "s1") = some row →
        verify_csrf_token (store_csrf_token [sessA] "s1" "tok") "s1" "tok" = true
        ∧ verify_csrf_token (store_csrf_token [sessA] "s1" "tok") "s1" "other"
            = false) :=
  c10_csrf_roundtrip [sessA] "s1" "tok" "other" (by decide) (by decide)

/-- Counterexample to C10 as literally stated: storing on an absent
session row is a silent no-op, and a stored empty-string token is read
back as absent, so the store-then-verify round trip fails in both
cases. -/
theorem c10_counterexample :
    verify_csrf_token (store_csrf_token [sessA] "s2" "tok") "s2" "tok" = false
    ∧ verify_csrf_token (store_csrf_token [sessA] "s1" "") "s1" "" = false := by
  decide

/-- C1: session validation evaluates absolute expiration, then the
8-hour absolute timeout, then the 30-minute idle timeout (only when
last_activity_at is set); the first failing check deletes the row and
returns Expired (none), so a second validate with the same id fails as
not-found; on success only last_accessed (not last_activity_at) is set
to now and the session's user_id is returned. -/
theorem c1_session_validation (sessions : List UserSession) (sid : String)
    (now now2 : Int) (s : UserSession)
    (hnodup : (sessions.map fun x => x.id).Nodup)
    (hfind : sessions.find? (fun x => x.id == sid) = some s) :
    (now > s.expires_at →
      get_session_user sessions sid now = (none, delete_session sessions sid))
    ∧ (¬ now > s.expires_at →
       now > s.created_at + ABSOLUTE_TIMEOUT_HOURS * 60 →
      get_session_user sessions sid now = (none, delete_session sessions sid))
    ∧ (∀ la, ¬ now > s.expires_at →
        ¬ now > s.created_at + ABSOLUTE_TIMEOUT_HOURS * 60 →
        s.last_activity_at = some la → now > la + IDLE_TIMEOUT_MINUTES →
      get_session_user sessions sid now = (none, delete_session sessions sid))
    ∧ get_session_user (delete_session sessions sid) sid now2
        = (none, delete_session sessions sid)
    ∧ (¬ now > s.expires_at →
       ¬ now > s.created_at + ABSOLUTE_TIMEOUT_HOURS * 60 →
       (∀ la, s.last_activity_at = some la → ¬ now > la + IDLE_TIMEOUT_MINUTES) →
      get_session_user sessions sid now
          = (some s.user_id, set_last_accessed sessions sid now)
      ∧ (get_session_user sessions sid now).2.find? (fun x => x.id == sid)
          = some { s with last_accessed := now }) := by
  refine ⟨?_, ?_, ?_, ?_, ?_⟩
  · intro h1
    simp only [get_session_user, hfind]
    rw [if_pos h1]
  · intro h1 h2
    simp only [get_session_user, hfind]
    rw [if_neg h1, if_pos h2]
  · intro la h1 h2 hla h3
    simp only [get_session_user, hfind]
    rw [if_neg h1, if_neg h2]
    simp only [hla]
    rw [if_pos h3]
  · have hdel := find?_delete_session sessions sid hnodup
    simp only [get_session_user, hdel]
  · intro h1 h2 h3
    have hmain : get_session_user sessions sid now
        = (some s.user_id, set_last_accessed sessions sid now) := by
      simp only [get_session_user, hfind]
      rw [if_neg h1, if_neg h2]
      cases hla : s.last_activity_at with
      | none => simp only [hla]
      | some la =>
        simp only [hla]
        rw [if_neg (h3 la hla)]
    refine ⟨hmain, ?_⟩
    rw [hmain]
    exact find?_set_last_accessed sessions sid now s hfind

/-- Witness for C1: the expired branch deletes and a second validate is
not-found; the valid branch returns the user id and touches only
last_accessed. -/
theorem c1_session_validation_witness :
    get_session_user [sessA] "s1" 50000 = (none, delete_session [sessA] "s1")
    ∧ get_session_user (delete_session [sessA] "s1") "s1" 50001
        = (none, delete_session [sessA] "s1")
    ∧ get_session_user [sessA] "s1" 20
        = (some sessA.user_id, set_last_accessed [sessA] "s1" 20)
    ∧ (get_session_user [sessA] "s1" 20).2.find? (fun x => x.id == "s1")
        = some { sessA with last_accessed := 20 } := by
  refine ⟨?_, ?_, ?_, ?_⟩
  · exact (c1_session_validation [sessA] "s1" 50000 0 sessA (by decide)
      (by decide)).1 (by decide)
  · exact (c1_session_validation [sessA] "s1" 50000 50001 sessA (by decide)
      (by decide)).2.2.2.1
  · exact ((c1_session_validation [sessA] "s1" 20 0 sessA (by decide)
      (by decide)).2.2.2.2 (by decide) (by decide)
      (by
        intro la hla
        simp only [sessA, Option.some.injEq] at hla
        subst hla
        decide)).1
  · exact ((c1_session_validation [sessA] "s1" 20 0 sessA (by decide)
      (by decide)).2.2.2.2 (by decide) (by decide)
      (by
        intro la hla
        simp only [sessA, Option.some.injEq] at hla
        subst hla
        decide)).2

/-- C2: with at least five failed attempts in the trailing 15-minute
window and now before (most recent failed attempt + 15 minutes),
check_rate_limit denies with zero attempts remaining and
locked_until = most recent failed attempt + 15 minutes, and the login
endpoint rejects the request as rate-limited (HTTP 429) regardless of
the supplied password; with fewer than five failed attempts in the
window it allows with remaining = 5 - count. -/
theorem c2_rate_limit_lockout (st : AppState) (email : String) (now m : Int) :
    (failedAttemptsInWindow st.attempts email (now - ATTEMPT_WINDOW_MINUTES)
        ≥ MAX_LOGIN_ATTEMPTS →
     lastFailedAttemptTime st.attempts email = some m →
     now < m + LOCKOUT_DURATION_MINUTES →
      check_rate_limit st.attempts email now
          = (false, 0, some (m + LOCKOUT_DURATION_MINUTES))
      ∧ ∀ (password : String) (client_ip user_agent : Option String)
          (checkpw : String → String → Bool)
          (attempt_id new_session_id new_csrf_token : String)
          (first_team : Option String),
          (login st email password client_ip user_agent checkpw now attempt_id
            new_session_id new_csrf_token first_team).1
            = LoginOutcome.rateLimited)
    ∧ (failedAttemptsInWindow st.attempts email (now - ATTEMPT_WINDOW_MINUTES)
          < MAX_LOGIN_ATTEMPTS →
      check_rate_limit st.attempts email now
          = (true,
             MAX_LOGIN_ATTEMPTS -
               failedAttemptsInWindow st.attempts email
                 (now - ATTEMPT_WINDOW_MINUTES),
             none)) := by
  constructor
  · intro h5 hm hlt
    have hcheck : check_rate_limit st.attempts email now
        = (false, 0, some (m + LOCKOUT_DURATION_MINUTES)) := by
      simp only [check_rate_limit]
      rw [if_pos h5]
      simp only [hm]
      rw [if_pos hlt]
    refine ⟨hcheck, ?_⟩
    intro password client_ip user_agent checkpw attempt_id new_session_id
      new_csrf_token first_team
    simp [login, hcheck]
  · intro hlt5
    simp only [check_rate_limit]
    rw [if_neg (by omega)]

/-- Witness for C2: identity e with five failed attempts at minutes 1..5
is denied at minute 10 (locked until minute 20) and a correct-password
login is rejected; with three failed attempts the check allows with two
attempts remaining. -/
theorem c2_rate_limit_lockout_witness :
    check_rate_limit attsLocked "e" 10
        = (false, 0, some (5 + LOCKOUT_DURATION_MINUTES))
    ∧ (login stLocked "e" "Current1!" none none cpA 10 "b" "ns" "nt" none).1
        = LoginOutcome.rateLimited
    ∧ check_rate_limit attsMix "e" 10
        = (true,
           MAX_LOGIN_ATTEMPTS -
             failedAttemptsInWindow attsMix "e" (10 - ATTEMPT_WINDOW_MINUTES),
           none) := by
  refine ⟨?_, ?_, ?_⟩
  · exact ((c2_rate_limit_lockout stLocked "e" 10 5).1 (by decide) (by decide)
      (by decide)).1
  · exact ((c2_rate_limit_lockout stLocked "e" 10 5).1 (by decide) (by decide)
      (by decide)).2 "Current1!" none none cpA "b" "ns" "nt" none
  · exact (c2_rate_limit_lockout stMix "e" 10 0).2 (by decide)

/-- Control-flow case analysis for login: the rate-limited branch
records the synthetic locked failure; a success outcome comes only from
the final branch, which records a success row, clears the failed rows
and writes the settings key; and every branch records exactly one new
attempt row. -/
theorem login_outcome_cases (st : AppState) (email password : String)
    (client_ip user_agent : Option String) (checkpw : String → String → Bool)
    (now : Int) (attempt_id new_session_id new_csrf_token : String)
    (first_team : Option String) :
    ((login st email password client_ip user_agent checkpw now attempt_id
        new_session_id new_csrf_token first_team).1 = LoginOutcome.rateLimited →
      (login st email password client_ip user_agent checkpw now attempt_id
        new_session_id new_csrf_token first_team).2.attempts
        = record_login_attempt st.attempts attempt_id email false now
            client_ip user_agent (some LOCKED_REASON))
    ∧ (∀ s3 t3 u3,
        (login st email password client_ip user_agent checkpw now attempt_id
          new_session_id new_csrf_token first_team).1
          = LoginOutcome.success s3 t3 u3 →
        (login st email password client_ip user_agent checkpw now attempt_id
          new_session_id new_csrf_token first_team).2.settings_current_user
          = some u3
        ∧ (login st email password client_ip user_agent checkpw now attempt_id
            new_session_id new_csrf_token first_team).2.attempts
          = clear_login_attempts
              (record_login_attempt st.attempts attempt_id email true now
                client_ip user_agent none) email)
    ∧ ((∃ reason,
          (login st email password client_ip user_agent checkpw now attempt_id
            new_session_id new_csrf_token first_team).2.attempts
          = record_login_attempt st.attempts attempt_id email false now
              client_ip user_agent (some reason))
       ∨ (login st email password client_ip user_agent checkpw now attempt_id
            new_session_id new_csrf_token first_team).2.attempts
          = clear_login_attempts
              (record_login_attempt st.attempts attempt_id email true now
                client_ip user_agent none) email) := by
  unfold login
  dsimp only
  split
  · exact ⟨fun _ => rfl, fun s3 t3 u3 h => by simp at h,
      Or.inl ⟨LOCKED_REASON, rfl⟩⟩
  · split
    · exact ⟨fun h => by simp at h, fun s3 t3 u3 h => by simp at h,
        Or.inl ⟨"Email not found", rfl⟩⟩
    · split
      · exact ⟨fun h => by simp at h, fun s3 t3 u3 h => by simp at h,
          Or.inl ⟨"Account disabled", rfl⟩⟩
      · split
        · exact ⟨fun h => by simp at h, fun s3 t3 u3 h => by simp at h,
            Or.inl ⟨"Invalid credentials", rfl⟩⟩
        · refine ⟨fun h => by simp at h, fun s3 t3 u3 h => ?_, Or.inr rfl⟩
          simp only [LoginOutcome.success.injEq] at h
          exact ⟨by simp [set_current_user_setting, h.2.2], rfl⟩

/-- Every branch of change_password leaves the app-settings
current_user_id row untouched. -/
theorem change_password_settings_invariant (st : AppState)
    (session_header : Option String) (current_password new_password : String)
    (checkpw : String → String → Bool) (new_hash : String) (now : Int)
    (new_csrf_token : String) :
    (change_password st session_header current_password new_password checkpw
      new_hash now new_csrf_token).2.settings_current_user
      = st.settings_current_user := by
  unfold change_password
  cases session_header with
  | none => rfl
  | some sid =>
    dsimp only
    cases (get_session_user st.sessions sid now).1 with
    | none => rfl
    | some uid =>
      dsimp only
      cases get_user st.users uid with
      | none => rfl
      | some user =>
        dsimp only
        split
        · rfl
        · split
          · rfl
          · split
            · rfl
            · rfl

/-- C5: with TEST_MODE unset, a request whose session header is absent,
unknown or expired still authenticates as the user id stored under the
app-wide current_user_id settings key; the session check likewise
reports authenticated for that user; login writes the key, and neither
logout nor change_password clears it. -/
theorem c5_settings_fallback (st : AppState) (sid sid2 uid : String)
    (now : Int) (sess : UserSession) (user : User) :
    (get_current_user_setting st = some uid →
      (require_auth st none false now).1 = some uid)
    ∧ (get_current_user_setting st = some uid →
       st.sessions.find? (fun x => x.id == sid2) = none →
      (require_auth st (some sid2) false now).1 = some uid)
    ∧ (get_current_user_setting st = some uid →
       st.sessions.find? (fun x => x.id == sid) = some sess →
       now > sess.expires_at →
      (require_auth st (some sid) false now).1 = some uid)
    ∧ (get_current_user_setting st = some uid →
       get_user st.users uid = some user →
      (check_session st none false now).1 = (true, some uid))
    ∧ (get_current_user_setting st = some uid →
       get_user st.users uid = some user →
       st.sessions.find? (fun x => x.id == sid) = some sess →
       now > sess.expires_at →
      (check_session st (some sid) false now).1 = (true, some uid))
    ∧ (∀ email password client_ip user_agent checkpw now2 aid nsid ntok ft
         s3 t3 u3,
        (login st email password client_ip user_agent checkpw now2 aid nsid
          ntok ft).1 = LoginOutcome.success s3 t3 u3 →
        (login st email password client_ip user_agent checkpw now2 aid nsid
          ntok ft).2.settings_current_user = some u3)
    ∧ (∀ esid, (logout st esid).settings_current_user
        = st.settings_current_user)
    ∧ (∀ hdr cur new checkpw nh now2 ntok,
        (change_password st hdr cur new checkpw nh now2 ntok).2.settings_current_user
          = st.settings_current_user) := by
  refine ⟨?_, ?_, ?_, ?_, ?_, ?_, ?_, ?_⟩
  · intro hset
    simp [require_auth, get_current_user_setting] at hset ⊢
    exact hset
  · intro hset hnone
    simp only [require_auth, hnone, get_session_user]
    simpa [get_current_user_setting] using hset
  · intro hset hfind hexp
    have hgsu : get_session_user st.sessions sid now
        = (none, delete_session st.sessions sid) := by
      simp only [get_session_user, hfind]
      rw [if_pos hexp]
    simp only [require_auth, hgsu]
    simpa [get_current_user_setting] using hset
  · intro hset huser
    have hid : user.id = uid := by
      have hp := List.find?_some huser
      simpa using hp
    simp only [check_session, get_current_user_setting] at *
    simp [hset, huser, hid]
  · intro hset huser hfind hexp
    have hid : user.id = uid := by
      have hp := List.find?_some huser
      simpa using hp
    have hgsu : get_session_user st.sessions sid now
        = (none, delete_session st.sessions sid) := by
      simp only [get_session_user, hfind]
      rw [if_pos hexp]
    simp only [check_session, hgsu, get_current_user_setting] at *
    simp [hset, huser, hid]
  · intro email password client_ip user_agent checkpw now2 aid nsid ntok ft
      s3 t3 u3 h
    exact ((login_outcome_cases st email password client_ip user_agent checkpw
      now2 aid nsid ntok ft).2.1 s3 t3 u3 h).1
  · intro esid
    rfl
  · intro hdr cur new checkpw nh now2 ntok
    exact change_password_settings_invariant st hdr cur new checkpw nh now2 ntok

/-- Witness for C5 at a state holding only an expired session for u1 and
the settings key set to u1: the fallback authenticates every header
shape, a successful login writes the key, and logout and
change_password leave it set. -/
theorem c5_settings_fallback_witness :
    (require_auth stExpired none false 100).1 = some "u1"
    ∧ (require_auth stExpired (some "nosuch") false 100).1 = some "u1"
    ∧ (require_auth stExpired (some "sid9") false 100).1 = some "u1"
    ∧ (check_session stExpired none false 100).1 = (true, some "u1")
    ∧ (check_session stExpired (some "sid9") false 100).1 = (true, some "u1")
    ∧ (login stMix "e" "Current1!" none none cpA 10 "b" "ns" "nt"
        none).2.settings_current_user = some "u1"
    ∧ (logout stExpired "sid9").settings_current_user
        = stExpired.settings_current_user
    ∧ (change_password stExpired (some "sid9") "Current1!" "NewValid2@" cpA
        "H2" 100 "TOK2").2.settings_current_user
        = stExpired.settings_current_user := by
  refine ⟨?_, ?_, ?_, ?_, ?_, ?_, ?_, ?_⟩
  · exact (c5_settings_fallback stExpired "sid9" "nosuch" "u1" 100 sessExpired
      userA).1 (by decide)
  · exact (c5_settings_fallback stExpired "sid9" "nosuch" "u1" 100 sessExpired
      userA).2.1 (by decide) (by decide)
  · exact (c5_settings_fallback stExpired "sid9" "nosuch" "u1" 100 sessExpired
      userA).2.2.1 (by decide) (by decide) (by decide)
  · exact (c5_settings_fallback stExpired "sid9" "nosuch" "u1" 100 sessExpired
      userA).2.2.2.1 (by decide) (by decide)
  · exact (c5_settings_fallback stExpired "sid9" "nosuch" "u1" 100 sessExpired
      userA).2.2.2.2.1 (by decide) (by decide) (by decide) (by decide)
  · exact (c5_settings_fallback stMix "sid9" "nosuch" "u1" 100 sessExpired
      userA).2.2.2.2.2.1 "e" "Current1!" none none cpA 10 "b" "ns" "nt" none
      "ns" "nt" "u1" (by decide)
  · exact (c5_settings_fallback stExpired "sid9" "nosuch" "u1" 100 sessExpired
      userA).2.2.2.2.2.2.1 "sid9"
  · exact (c5_settings_fallback stExpired "sid9" "nosuch" "u1" 100 sessExpired
      userA).2.2.2.2.2.2.2 (some "sid9") "Current1!" "NewValid2@" cpA "H2" 100
      "TOK2"

/-- After clearing, no failed attempt for the identity remains in any
window. -/
theorem failedAttemptsInWindow_clear (attempts : List LoginAttempt)
    (email : String) (ws : Int) :
    failedAttemptsInWindow (clear_login_attempts attempts email) email ws = 0 := by
  rw [failedAttemptsInWindow, List.length_eq_zero, List.filter_eq_nil_iff]
  intro a ha
  rw [clear_login_attempts, List.mem_filter] at ha
  have h2 := ha.2
  cases hee : (a.email == email) <;> cases hss : (a.success == false) <;>
    simp [hee, hss] at h2 ⊢

/-- A rate-limit check immediately after clearing allows with all five
attempts remaining. -/
theorem check_rate_limit_clear (attempts : List LoginAttempt) (email : String)
    (now : Int) :
    check_rate_limit (clear_login_attempts attempts email) email now
      = (true, MAX_LOGIN_ATTEMPTS, none) := by
  have h0 := failedAttemptsInWindow_clear attempts email
    (now - ATTEMPT_WINDOW_MINUTES)
  simp only [check_rate_limit, h0]
  rw [if_neg (by simp [MAX_LOGIN_ATTEMPTS])]
  rfl

/-- C7: clear_login_attempts deletes exactly the failed rows of the
identity: successful rows of the identity and all rows of other
identities survive unchanged, a fresh check counts zero failed attempts
and allows with five remaining, and on the login success path the
just-recorded success row survives the clearing. -/
theorem c7_clear_failed_attempts (attempts : List LoginAttempt)
    (email e2 : String) (now ws : Int) (st : AppState) :
    (∀ a, a ∈ clear_login_attempts attempts email ↔
       (a ∈ attempts ∧ (a.email = email → a.success = true)))
    ∧ (e2 ≠ email →
       (clear_login_attempts attempts email).filter (fun a => a.email == e2)
         = attempts.filter (fun a => a.email == e2))
    ∧ ((clear_login_attempts attempts email).filter
          (fun a => a.email == email && a.success)
         = attempts.filter (fun a => a.email == email && a.success))
    ∧ failedAttemptsInWindow (clear_login_attempts attempts email) email ws = 0
    ∧ check_rate_limit (clear_login_attempts attempts email) email now
        = (true, MAX_LOGIN_ATTEMPTS, none)
    ∧ (∀ password client_ip user_agent checkpw aid nsid ntok ft s3 t3 u3,
        (login st email password client_ip user_agent checkpw now aid nsid
          ntok ft).1 = LoginOutcome.success s3 t3 u3 →
        ({ id := aid, email := email, ip_address := client_ip,
           user_agent := user_agent, attempted_at := now, success := true,
           failure_reason := none } : LoginAttempt)
          ∈ (login st email password client_ip user_agent checkpw now aid nsid
              ntok ft).2.attempts
        ∧ check_rate_limit (login st email password client_ip user_agent
            checkpw now aid nsid ntok ft).2.attempts email now
            = (true, MAX_LOGIN_ATTEMPTS, none)) := by
  refine ⟨?_, ?_, ?_, ?_, ?_, ?_⟩
  · intro a
    simp [clear_login_attempts, List.mem_filter]
    tauto
  · intro hne
    rw [clear_login_attempts, List.filter_filter]
    apply List.filter_congr
    intro a ha
    by_cases he : a.email = e2
    · simp [he, hne]
    · simp [he]
  · rw [clear_login_attempts, List.filter_filter]
    apply List.filter_congr
    intro a ha
    cases hee : (a.email == email) <;> cases hs : a.success <;> simp [hee, hs]
  · exact failedAttemptsInWindow_clear attempts email ws
  · exact check_rate_limit_clear attempts email now
  · intro password client_ip user_agent checkpw aid nsid ntok ft s3 t3 u3 h
    have hatts := ((login_outcome_cases st email password client_ip user_agent
      checkpw now aid nsid ntok ft).2.1 s3 t3 u3 h).2
    rw [hatts]
    constructor
    · rw [clear_login_attempts, List.mem_filter]
      refine ⟨?_, by simp⟩
      rw [record_login_attempt]
      exact List.mem_append_right _ (List.mem_singleton_self _)
    · exact check_rate_limit_clear _ email now

/-- Witness for C7 on the mixed attempt log: failed rows for e are gone,
rows for f and the success row for e survive, the fresh check allows
with five remaining, and the login success path keeps its own success
row. -/
theorem c7_clear_failed_attempts_witness :
    (∀ a, a ∈ clear_login_attempts attsMix "e" ↔
       (a ∈ attsMix ∧ (a.email = "e" → a.success = true)))
    ∧ (clear_login_attempts attsMix "e").filter (fun a => a.email == "f")
        = attsMix.filter (fun a => a.email == "f")
    ∧ (clear_login_attempts attsMix "e").filter
          (fun a => a.email == "e" && a.success)
        = attsMix.filter (fun a => a.email == "e" && a.success)
    ∧ failedAttemptsInWindow (clear_login_attempts attsMix "e") "e" (-5) = 0
    ∧ check_rate_limit (clear_login_attempts attsMix "e") "e" 10
        = (true, MAX_LOGIN_ATTEMPTS, none)
    ∧ (({ id := "b", email := "e", ip_address := none, user_agent := none,
          attempted_at := 10, success := true,
          failure_reason := none } : LoginAttempt)
        ∈ (login stMix "e" "Current1!" none none cpA 10 "b" "ns" "nt"
            none).2.attempts
       ∧ check_rate_limit (login stMix "e" "Current1!" none none cpA 10 "b"
           "ns" "nt" none).2.attempts "e" 10
           = (true, MAX_LOGIN_ATTEMPTS, none)) := by
  refine ⟨?_, ?_, ?_, ?_, ?_, ?_⟩
  · exact (c7_clear_failed_attempts attsMix "e" "f" 10 (-5) stMix).1
  · exact (c7_clear_failed_attempts attsMix "e" "f" 10 (-5) stMix).2.1
      (by decide)
  · exact (c7_clear_failed_attempts attsMix "e" "f" 10 (-5) stMix).2.2.1
  · exact (c7_clear_failed_attempts attsMix "e" "f" 10 (-5) stMix).2.2.2.1
  · exact (c7_clear_failed_attempts attsMix "e" "f" 10 (-5) stMix).2.2.2.2.1
  · exact (c7_clear_failed_attempts attsMix "e" "f" 10 (-5) stMix).2.2.2.2.2
      "Current1!" none none cpA "b" "ns" "nt" none "ns" "nt" "u1" (by decide)

/-- Appending a failed row for the identity makes the most recent failed
attempt the max of its time and the previous most recent one. -/
theorem lastFailedAttemptTime_append (l : List LoginAttempt)
    (row : LoginAttempt) (email : String)
    (he : row.email = email) (hs : row.success = false) :
    lastFailedAttemptTime (l ++ [row]) email =
      some (match lastFailedAttemptTime l email with
            | none => row.attempted_at
            | some m => max row.attempted_at m) := by
  induction l with
  | nil =>
    simp [lastFailedAttemptTime, he, hs]
  | cons a rest ih =>
    rw [List.cons_append]
    simp only [lastFailedAttemptTime]
    rw [ih]
    cases hc : (a.email == email && a.success == false) with
    | false =>
      simp only [Bool.false_eq_true, if_false]
    | true =>
      simp only [if_true]
      cases hr : lastFailedAttemptTime rest email with
      | none => simp [max_comm]
      | some m => simp [max_left_comm]

/-- Appending an in-window failed row for the identity increments the
windowed failed-attempt count. -/
theorem failedAttemptsInWindow_append (l : List LoginAttempt)
    (row : LoginAttempt) (email : String) (ws : Int)
    (he : row.email = email) (hs : row.success = false)
    (ha : row.attempted_at > ws) :
    failedAttemptsInWindow (l ++ [row]) email ws
      = failedAttemptsInWindow l email ws + 1 := by
  simp [failedAttemptsInWindow, List.filter_append, he, hs, ha]

/-- An attempt log of the shape l ++ [row] keeps exactly the new row
under the fresh-id filter. -/
theorem filter_fresh_id_append (l : List LoginAttempt) (row : LoginAttempt)
    (aid : String) (hfresh : ∀ a ∈ l, a.id ≠ aid) (hid : row.id = aid) :
    (l ++ [row]).filter (fun a => a.id == aid) = [row] := by
  rw [List.filter_append]
  have hl : l.filter (fun a => a.id == aid) = [] := by
    rw [List.filter_eq_nil_iff]
    intro a ha
    simpa using hfresh a ha
  rw [hl]
  simp [hid]

/-- C6: every login request appends exactly one attempt row, carrying
the freshly generated id; a rate-limited request appends a failed row
with the synthetic locked reason; and recording a further failed attempt
at time now (not before the previous most recent failure) makes
locked_until equal now + 15 minutes, never decreasing it. -/
theorem c6_attempt_append_lockout_extension (st : AppState)
    (email password : String) (client_ip user_agent : Option String)
    (checkpw : String → String → Bool) (now m : Int)
    (attempt_id new_session_id new_csrf_token : String)
    (first_team : Option String) (reason : Option String) :
    ((∀ a ∈ st.attempts, a.id ≠ attempt_id) →
      ((login st email password client_ip user_agent checkpw now attempt_id
          new_session_id new_csrf_token first_team).2.attempts.filter
            (fun a => a.id == attempt_id)).length = 1
      ∧ ∀ a ∈ (login st email password client_ip user_agent checkpw now
          attempt_id new_session_id new_csrf_token first_team).2.attempts,
          a.id ≠ attempt_id → a ∈ st.attempts)
    ∧ ((login st email password client_ip user_agent checkpw now attempt_id
          new_session_id new_csrf_token first_team).1
            = LoginOutcome.rateLimited →
        (login st email password client_ip user_agent checkpw now attempt_id
          new_session_id new_csrf_token first_team).2.attempts
          = st.attempts ++
            [{ id := attempt_id, email := email, ip_address := client_ip,
               user_agent := user_agent, attempted_at := now, success := false,
               failure_reason := some LOCKED_REASON }])
    ∧ (failedAttemptsInWindow st.attempts email (now - ATTEMPT_WINDOW_MINUTES)
          ≥ MAX_LOGIN_ATTEMPTS →
       lastFailedAttemptTime st.attempts email = some m →
       m ≤ now →
        check_rate_limit (record_login_attempt st.attempts attempt_id email
            false now client_ip user_agent reason) email now
          = (false, 0, some (now + LOCKOUT_DURATION_MINUTES))
        ∧ m + LOCKOUT_DURATION_MINUTES ≤ now + LOCKOUT_DURATION_MINUTES
        ∧ (m < now →
            m + LOCKOUT_DURATION_MINUTES < now + LOCKOUT_DURATION_MINUTES)) := by
  refine ⟨?_, ?_, ?_⟩
  · intro hfresh
    rcases (login_outcome_cases st email password client_ip user_agent checkpw
      now attempt_id new_session_id new_csrf_token first_team).2.2 with
      ⟨reason2, hatts⟩ | hatts
    · rw [hatts, record_login_attempt]
      constructor
      · rw [filter_fresh_id_append st.attempts _ attempt_id hfresh rfl]
        rfl
      · intro a ha hne
        rcases List.mem_append.mp ha with h | h
        · exact h
        · exact absurd (by cases List.mem_singleton.mp h; rfl) hne
    · rw [hatts, record_login_attempt, clear_login_attempts,
        List.filter_append]
      have hkeep : List.filter
          (fun (a : LoginAttempt) => !(a.email == email && a.success == false))
          [({ id := attempt_id, email := email, ip_address := client_ip,
              user_agent := user_agent, attempted_at := now, success := true,
              failure_reason := none } : LoginAttempt)]
          = [({ id := attempt_id, email := email, ip_address := client_ip,
                user_agent := user_agent, attempted_at := now, success := true,
                failure_reason := none } : LoginAttempt)] := by
        simp
      rw [hkeep]
      constructor
      · rw [filter_fresh_id_append _ _ attempt_id
          (fun a ha => hfresh a (List.mem_of_mem_filter ha)) rfl]
        rfl
      · intro a ha hne
        rcases List.mem_append.mp ha with h | h
        · exact List.mem_of_mem_filter h
        · exact absurd (by cases List.mem_singleton.mp h; rfl) hne
  · intro h
    exact (login_outcome_cases st email password client_ip user_agent checkpw
      now attempt_id new_session_id new_csrf_token first_team).1 h
  · intro h5 hm hle
    have hlast : lastFailedAttemptTime (record_login_attempt st.attempts
        attempt_id email false now client_ip user_agent reason) email
        = some now := by
      rw [record_login_attempt,
        lastFailedAttemptTime_append st.attempts _ email rfl rfl, hm]
      simp [max_eq_left hle]
    have hcount : failedAttemptsInWindow (record_login_attempt st.attempts
        attempt_id email false now client_ip user_agent reason) email
        (now - ATTEMPT_WINDOW_MINUTES)
        = failedAttemptsInWindow st.attempts email
            (now - ATTEMPT_WINDOW_MINUTES) + 1 := by
      rw [record_login_attempt]
      exact failedAttemptsInWindow_append st.attempts _ email _ rfl rfl
        (by simp only [ATTEMPT_WINDOW_MINUTES]; omega)
    refine ⟨?_, by omega, fun hlt => by omega⟩
    simp only [check_rate_limit, hcount, hlast]
    rw [if_pos (by omega)]
    rw [if_pos (by simp only [LOCKOUT_DURATION_MINUTES]; omega)]

/-- Witness for C6 at the locked state: the rate-limited login appends
exactly the synthetic locked failure row, and a further recorded failed
attempt at minute 10 moves locked_until from minute 20 to minute 25. -/
theorem c6_attempt_append_lockout_extension_witness :
    ((login stLocked "e" "Current1!" none none cpA 10 "b" "ns" "nt"
        none).2.attempts.filter (fun a => a.id == "b")).length = 1
    ∧ (login stLocked "e" "Current1!" none none cpA 10 "b" "ns" "nt"
        none).2.attempts
        = stLocked.attempts ++
          [{ id := "b", email := "e", ip_address := none, user_agent := none,
             attempted_at := 10, success := false,
             failure_reason := some LOCKED_REASON }]
    ∧ check_rate_limit (record_login_attempt stLocked.attempts "b" "e" false
        10 none none (some LOCKED_REASON)) "e" 10
        = (false, 0, some (10 + LOCKOUT_DURATION_MINUTES))
    ∧ (5 : Int) + LOCKOUT_DURATION_MINUTES < 10 + LOCKOUT_DURATION_MINUTES := by
  refine ⟨?_, ?_, ?_, ?_⟩
  · exact ((c6_attempt_append_lockout_extension stLocked "e" "Current1!" none
      none cpA 10 5 "b" "ns" "nt" none none).1 (by decide)).1
  · exact (c6_attempt_append_lockout_extension stLocked "e" "Current1!" none
      none cpA 10 5 "b" "ns" "nt" none none).2.1 (by decide)
  · exact ((c6_attempt_append_lockout_extension stLocked "e" "Current1!" none
      none cpA 10 5 "b" "ns" "nt" none (some LOCKED_REASON)).2.2 (by decide)
      (by decide) (by decide)).1
  · exact ((c6_attempt_append_lockout_extension stLocked "e" "Current1!" none
      none cpA 10 5 "b" "ns" "nt" none (some LOCKED_REASON)).2.2 (by decide)
      (by decide) (by decide)).2.2 (by decide)

/-- A session passing all three expiry checks validates to its user id
and only touches last_accessed. -/
theorem get_session_user_valid (sessions : List UserSession) (sid : String)
    (now : Int) (s : UserSession)
    (hfind : sessions.find? (fun x => x.id == sid) = some s)
    (h1 : ¬ now > s.expires_at)
    (h2 : ¬ now > s.created_at + ABSOLUTE_TIMEOUT_HOURS * 60)
    (h3 : ∀ la, s.last_activity_at = some la →
        ¬ now > la + IDLE_TIMEOUT_MINUTES) :
    get_session_user sessions sid now
      = (some s.user_id, set_last_accessed sessions sid now) := by
  simp only [get_session_user, hfind]
  rw [if_neg h1, if_neg h2]
  cases hla : s.last_activity_at with
  | none => simp only [hla]
  | some la =>
    simp only [hla]
    rw [if_neg (h3 la hla)]

/-- With unique ids, the row found for an id is the only member carrying
that id. -/
theorem mem_eq_of_find_nodup (sid : String) (sess : UserSession) :
    ∀ (l : List UserSession), (l.map fun x => x.id).Nodup →
      l.find? (fun x => x.id == sid) = some sess →
      ∀ r ∈ l, r.id = sid → r = sess := by
  intro l
  induction l with
  | nil => intro _ _ r hr; simp at hr
  | cons a rest ih =>
    intro hnodup hfind r hr hid
    simp only [List.map_cons, List.nodup_cons] at hnodup
    by_cases ha : (a.id == sid) = true
    · simp only [List.find?, ha] at hfind
      have hasess : a = sess := Option.some.inj hfind
      rcases List.mem_cons.mp hr with h | h
      · rw [h, hasess]
      · exfalso
        have haid : a.id = sid := by simpa using ha
        exact hnodup.1 (by
          rw [haid, ← hid]
          exact List.mem_map_of_mem (fun x => x.id) h)
    · have ha' : (a.id == sid) = false := by simpa using ha
      simp only [List.find?, ha'] at hfind
      rcases List.mem_cons.mp hr with h | h
      · exact absurd (by rw [← h]; simpa using hid) ha
      · exact ih hnodup.2 hfind r h hid

/-- Rows of set_last_accessed keep their id and owner. -/
theorem mem_set_last_accessed (sid : String) (now : Int) :
    ∀ (l : List UserSession), ∀ r ∈ set_last_accessed l sid now,
      ∃ r0 ∈ l, r.id = r0.id ∧ r.user_id = r0.user_id := by
  intro l
  induction l with
  | nil => intro r hr; simp [set_last_accessed] at hr
  | cons a rest ih =>
    intro r hr
    simp only [set_last_accessed] at hr
    by_cases ha : (a.id == sid) = true
    · rw [if_pos ha] at hr
      rcases List.mem_cons.mp hr with h | h
      · exact ⟨a, List.mem_cons_self a rest, by rw [h]; exact ⟨rfl, rfl⟩⟩
      · exact ⟨r, List.mem_cons_of_mem a h, rfl, rfl⟩
    · rw [if_neg ha] at hr
      rcases List.mem_cons.mp hr with h | h
      · exact ⟨a, List.mem_cons_self a rest, by rw [h]; exact ⟨rfl, rfl⟩⟩
      · rcases ih r h with ⟨r0, hr0, hi, hu⟩
        exact ⟨r0, List.mem_cons_of_mem a hr0, hi, hu⟩

/-- Rows of store_csrf_token keep their id and owner. -/
theorem mem_store_csrf_token (l : List UserSession) (sid t : String) :
    ∀ r ∈ store_csrf_token l sid t,
      ∃ r0 ∈ l, r.id = r0.id ∧ r.user_id = r0.user_id := by
  intro r hr
  rw [store_csrf_token, List.mem_map] at hr
  rcases hr with ⟨r0, hr0, heq⟩
  refine ⟨r0, hr0, ?_⟩
  by_cases h : (r0.id == sid) = true
  · rw [if_pos h] at heq
    cases heq
    exact ⟨rfl, rfl⟩
  · rw [if_neg h] at heq
    cases heq
    exact ⟨rfl, rfl⟩

/-- Rows surviving a full invalidation belong to another user. -/
theorem mem_invalidate_none (l : List UserSession) (uid : String) :
    ∀ r ∈ invalidate_user_sessions l uid none, r ∈ l ∧ r.user_id ≠ uid := by
  intro r hr
  rw [invalidate_user_sessions, List.mem_filter] at hr
  refine ⟨hr.1, ?_⟩
  have h2 := hr.2
  simpa using h2

/-- C3 (amended): a successful change-password deletes every session of
the requesting user, the old session id included, and a subsequent
session check with the old id reports authenticated: false whenever
TEST_MODE is set; with TEST_MODE unset the app-settings current_user_id
fallback can still report authenticated: true for the deleted id. -/
theorem c3_change_password_invalidates_sessions (st : AppState)
    (sid cur new nh tok : String) (checkpw : String → String → Bool)
    (now now2 : Int) (sess : UserSession) (user : User)
    (hnodup : (st.sessions.map fun x => x.id).Nodup)
    (hfind : st.sessions.find? (fun x => x.id == sid) = some sess)
    (h1 : ¬ now > sess.expires_at)
    (h2 : ¬ now > sess.created_at + ABSOLUTE_TIMEOUT_HOURS * 60)
    (h3 : ∀ la, sess.last_activity_at = some la →
        ¬ now > la + IDLE_TIMEOUT_MINUTES)
    (huser : get_user st.users sess.user_id = some user)
    (hcur : verify_password checkpw cur user.password_hash = true)
    (hstrong : (validate_password_strength new).1 = true)
    (hdiff : verify_password checkpw new user.password_hash = false) :
    (change_password st (some sid) cur new checkpw nh now tok).1
        = ChangePasswordResult.success tok
    ∧ (∀ r ∈ (change_password st (some sid) cur new checkpw nh now
        tok).2.sessions, r.user_id ≠ sess.user_id)
    ∧ (change_password st (some sid) cur new checkpw nh now
        tok).2.sessions.find? (fun x => x.id == sid) = none
    ∧ (check_session (change_password st (some sid) cur new checkpw nh now
        tok).2 (some sid) true now2).1 = (false, none) := by
  have hgsu := get_session_user_valid st.sessions sid now sess hfind h1 h2 h3
  have hcp : change_password st (some sid) cur new checkpw nh now tok
      = (ChangePasswordResult.success tok,
         { st with
           users := update_user_password st.users sess.user_id nh now,
           sessions := store_csrf_token (invalidate_user_sessions
             (set_last_accessed st.sessions sid now) sess.user_id none) sid
             tok }) := by
    simp [change_password, hgsu, huser, hcur, hstrong, hdiff]
  have hmem : ∀ r ∈ (change_password st (some sid) cur new checkpw nh now
      tok).2.sessions, r.user_id ≠ sess.user_id := by
    intro r hr
    rw [hcp] at hr
    dsimp only at hr
    rcases mem_store_csrf_token _ sid tok r hr with ⟨r0, hr0, _, huid⟩
    rcases mem_invalidate_none _ sess.user_id r0 hr0 with ⟨_, hne⟩
    rw [huid]
    exact hne
  have hnone : (change_password st (some sid) cur new checkpw nh now
      tok).2.sessions.find? (fun x => x.id == sid) = none := by
    rw [hcp]
    dsimp only
    rw [List.find?_eq_none]
    intro r hr hp
    have hid : r.id = sid := by simpa using hp
    rcases mem_store_csrf_token _ sid tok r hr with ⟨r0, hr0, hi, huid⟩
    rcases mem_invalidate_none _ sess.user_id r0 hr0 with ⟨hr0m, hne⟩
    rcases mem_set_last_accessed sid now st.sessions r0 hr0m with
      ⟨r1, hr1, hi1, hu1⟩
    have hr1id : r1.id = sid := by rw [← hi1, ← hi, hid]
    have hr1sess : r1 = sess :=
      mem_eq_of_find_nodup sid sess st.sessions hnodup hfind r1 hr1 hr1id
    exact hne (by rw [hu1, hr1sess])
  refine ⟨by rw [hcp], hmem, hnone, ?_⟩
  simp only [check_session, get_session_user, hnone]
  simp

/-- Witness for C3 at a concrete state: after the successful password
change the old session id is gone and a TEST_MODE session check reports
authenticated: false. -/
theorem c3_change_password_invalidates_sessions_witness :
    (change_password stB (some "sid1") "Current1!" "NewValid2@" cpA "H2" 100
        "TOK2").1 = ChangePasswordResult.success "TOK2"
    ∧ (∀ r ∈ (change_password stB (some "sid1") "Current1!" "NewValid2@" cpA
        "H2" 100 "TOK2").2.sessions, r.user_id ≠ sessB.user_id)
    ∧ (change_password stB (some "sid1") "Current1!" "NewValid2@" cpA "H2" 100
        "TOK2").2.sessions.find? (fun x => x.id == "sid1") = none
    ∧ (check_session (change_password stB (some "sid1") "Current1!"
        "NewValid2@" cpA "H2" 100 "TOK2").2 (some "sid1") true 100).1
        = (false, none) :=
  c3_change_password_invalidates_sessions stB "sid1" "Current1!" "NewValid2@"
    "H2" "TOK2" cpA 100 100 sessB userA (by decide) (by decide) (by decide)
    (by decide)
    (by
      intro la hla
      simp only [sessB, Option.some.injEq] at hla
      subst hla
      decide)
    (by decide) (by decide) (by decide) (by decide)

/-- Counterexample to C3 as stated: with TEST_MODE unset, immediately
after the successful change-password that deleted every session of u1,
a session check with the old session id still reports authenticated:
true through the app-settings current_user_id fallback. -/
theorem c3_counterexample :
    (change_password stB (some "sid1") "Current1!" "NewValid2@" cpA "H2" 100
        "TOK2").1 = ChangePasswordResult.success "TOK2"
    ∧ (change_password stB (some "sid1") "Current1!" "NewValid2@" cpA "H2" 100
        "TOK2").2.sessions = []
    ∧ (check_session (change_password stB (some "sid1") "Current1!"
        "NewValid2@" cpA "H2" 100 "TOK2").2 (some "sid1") false 100).1
        = (true, some "u1") := by
  decide

/-- C4: at the concrete failing input, change-password succeeds and
returns the freshly generated CSRF token, but the requesting session row
was already deleted when the token was stored, so the stored-token
update hit no row and afterwards verify_csrf_token on that session id is
false for the new token — and for every token. -/
theorem c4_csrf_rotation_lost :
    (change_password stB (some "sid1") "Current1!" "NewValid2@" cpA "H2" 100
        "TOK2").1 = ChangePasswordResult.success "TOK2"
    ∧ (change_password stB (some "sid1") "Current1!" "NewValid2@" cpA "H2" 100
        "TOK2").2.sessions = []
    ∧ verify_csrf_token (change_password stB (some "sid1") "Current1!"
        "NewValid2@" cpA "H2" 100 "TOK2").2.sessions "sid1" "TOK2" = false
    ∧ ∀ t, verify_csrf_token (change_password stB (some "sid1") "Current1!"
        "NewValid2@" cpA "H2" 100 "TOK2").2.sessions "sid1" t = false := by
  refine ⟨by decide, by decide, by decide, ?_⟩
  intro t
  have h : (change_password stB (some "sid1") "Current1!" "NewValid2@" cpA
      "H2" 100 "TOK2").2.sessions = [] := by decide
  rw [h]
  rfl

end ProjectGoat
